import Mathlib

/-!
Shallow embedding of `src/version_2/mcpservers/examples/file_browser_server.py`,
the file-browser MCP tool server: the sandbox check `_is_path_allowed`, the three
tool handlers `_handle_list_directory`, `_handle_read_file`,
`_handle_get_file_info`, and the POST dispatcher `do_POST`.

Filesystem state is modelled as an oracle structure `FS`: each OS call the
Python code makes (os.listdir, os.stat, os.path.getsize, open/read, os.path.isdir,
os.path.isfile) is a field returning either a value or the Python exception it
raises.  Handlers return the HTTP outcome together with the exact list of
filesystem operations they performed, so that statements about "no filesystem
I/O" are statements about that trace.
-/

namespace FileBrowser

/-- Model of a JSON value, as produced by Python's json.dumps on the dicts the
server builds.  Object fields keep the insertion order of the source dict. -/
inductive JVal where
  | str (s : String)
  | num (n : Int)
  | bool (b : Bool)
  | null
  | arr (xs : List JVal)
  | obj (fields : List (String × JVal))

/-- Python exceptions relevant to the handlers' try/except clauses. -/
inductive PyErr where
  | fileNotFound
  | permissionDenied
  | isADirectory
  | notADirectory
  | unicodeDecodeError
deriving DecidableEq, Repr

/-- Result of a successful os.stat: the fields the server reads. -/
structure StatInfo where
  st_size : Int
  st_ctime : Int
  st_mtime : Int
  st_atime : Int
deriving DecidableEq, Repr

/-- Filesystem operations a handler can perform, recorded as a trace. -/
inductive FSOp where
  | opListdir (p : String)
  | opStat (p : String)
  | opGetsize (p : String)
  | opOpen (p : String)
  | opIsdir (p : String)
  | opIsfile (p : String)
deriving DecidableEq, Repr

/-- Oracle model of the host filesystem: what each OS call would return. -/
structure FS where
  listdir : String → Except PyErr (List String)
  stat : String → Except PyErr StatInfo
  isdir : String → Bool
  isfile : String → Bool
  getsize : String → Except PyErr Int
  readBytes : String → Except PyErr (List Nat)

/-- Parsed JSON body of a tool request: the server only ever reads the string
field "path", so a string-valued association list suffices. -/
abbrev Params := List (String × String)

/-- Process-wide configuration: ALLOWED_DIRS and the working directory that
os.path.abspath consults for relative paths. -/
structure Config where
  allowedDirs : List String
  cwd : String

/-- Outcome of one POST request: a 200 response with a JSON body written after
self.send_response(200) in _set_headers, a self.send_error transport error, or
an exception escaping the handler (not caught by any except clause). -/
inductive HTTPResult where
  | response (status : Nat) (body : JVal)
  | httpError (status : Nat) (msg : String)
  | crash (e : PyErr)

/-! ### Python string/path primitives used by the server -/

/-- Model of list-level startswith: pat is an initial segment of l. -/
def leadsWith : List Char → List Char → Bool
  | [], _ => true
  | _ :: _, [] => false
  | a :: as, b :: bs => a == b && leadsWith as bs

/-- Model of Python s.startswith(pre). -/
def pyStartswith (s pre : String) : Bool :=
  leadsWith pre.toList s.toList

/-- Model of Python s.endswith(suf). -/
def pyEndswith (s suf : String) : Bool :=
  leadsWith suf.toList.reverse s.toList.reverse

/-- Model of Python path.split(sep) for a single character separator:
splitting "" gives [""], and separators at the ends give empty components. -/
def splitSlash : List Char → List (List Char)
  | [] => [[]]
  | c :: cs =>
    let r := splitSlash cs
    if c = '/' then [] :: r
    else
      match r with
      | h :: t => (c :: h) :: t
      | [] => [[c]]

/-- Model of sep.join for sep = "/". -/
def joinSlash : List String → String
  | [] => ""
  | [x] => x
  | x :: xs => x ++ "/" ++ joinSlash xs

/-- Loop of posixpath.normpath over the split components: drops "" and ".",
and resolves ".." against the accumulated components exactly as the source of
posixpath.normpath does (acc holds new_comps reversed). -/
def normLoop (initSl : Nat) : List String → List String → List String
  | acc, [] => acc.reverse
  | acc, comp :: rest =>
    if comp = "" ∨ comp = "." then normLoop initSl acc rest
    else if comp ≠ ".." ∨ (initSl = 0 ∧ acc = []) ∨ acc.headD "" = ".." then
      normLoop initSl (comp :: acc) rest
    else
      match acc with
      | _ :: accT => normLoop initSl accT rest
      | [] => normLoop initSl acc rest

/-- Model of posixpath.normpath, the canonicalization os.path.abspath applies:
collapses "." and "..", preserving the special two-leading-slash case. -/
def normpath (s : String) : String :=
  if s = "" then "."
  else
    let initSl : Nat :=
      if pyStartswith s "/" then
        if pyStartswith s "//" ∧ ¬ pyStartswith s "///" then 2 else 1
      else 0
    let comps := (splitSlash s.toList).map (fun l => String.mk l)
    let joined := joinSlash (normLoop initSl [] comps)
    let out := String.mk (List.replicate initSl '/') ++ joined
    if out = "" then "." else out

/-- Model of posixpath.join for two arguments, as used by os.path.join in the
list_directory loop and by abspath on relative paths. -/
def pyJoin (a b : String) : String :=
  if pyStartswith b "/" then b
  else if a = "" ∨ pyEndswith a "/" then a ++ b
  else a ++ "/" ++ b

/-- Model of os.path.abspath: join against the working directory when the path
is relative, then normalize.  Pure: a function of cwd and the path string. -/
def abspath (cwd path : String) : String :=
  if pyStartswith path "/" then normpath path
  else normpath (pyJoin cwd path)

/-- Model of Python s.strip("/"): remove leading and trailing slash runs. -/
def stripSlashes (s : String) : String :=
  String.mk (((s.toList.dropWhile (· = '/')).reverse.dropWhile (· = '/')).reverse)

/-! ### Model of mimetypes.guess_type -/

/-- Extension-to-type table.  Modelled from the Python standard library
mimetypes map restricted to common extensions: the server itself adds no
entries, and the claims only need that .txt and .json map to the text side of
the classifier while .png and .bin map to non-text types. -/
def mimeTable : List (String × String) :=
  [(".txt", "text/plain"), (".json", "application/json"), (".png", "image/png"),
   (".bin", "application/octet-stream"), (".html", "text/html"),
   (".htm", "text/html"), (".jpg", "image/jpeg"), (".jpeg", "image/jpeg"),
   (".gif", "image/gif"), (".pdf", "application/pdf"), (".zip", "application/zip"),
   (".csv", "text/csv"), (".xml", "text/xml"), (".md", "text/markdown"),
   (".py", "text/x-python"), (".mp3", "audio/mpeg"), (".mp4", "video/mp4"),
   (".tar", "application/x-tar"), (".js", "text/javascript"), (".css", "text/css")]

/-- Extension part of posixpath.splitext applied to the basename: the suffix
from the last dot, provided some earlier character of the basename is not a
dot (so dotfiles such as ".txt" have no extension). -/
def extOfBase (base : List Char) : String :=
  let rev := base.reverse
  let suf := rev.takeWhile (· ≠ '.')
  match rev.drop suf.length with
  | '.' :: preR =>
    if preR.any (· ≠ '.') then String.mk ('.' :: suf.reverse) else ""
  | _ => ""

/-- Model of mimetypes.guess_type: look the lowercased extension of the last
path component up in the type table; none when the extension is unknown. -/
def guess_type (p : String) : Option String :=
  let base := (splitSlash p.toList).getLastD []
  let ext := String.mk ((extOfBase base).toList.map Char.toLower)
  mimeTable.lookup ext

/-- The binary/text classifier of _handle_read_file, line 206 of the source:
is_binary = mime_type and not mime_type.startswith(("text/", "application/json")).
A missing type (None) is falsy, so unknown extensions classify as text. -/
def is_binary (mime_type : Option String) : Bool :=
  match mime_type with
  | none => false
  | some t => !(pyStartswith t "text/" || pyStartswith t "application/json")

/-! ### UTF-8 decoding (Python text-mode read, errors="strict") -/

/-- Whether a byte is a UTF-8 continuation byte. -/
def utf8Cont (b : Nat) : Bool := 128 ≤ b && b ≤ 191

/-- Strict UTF-8 decoder: none exactly when Python's bytes.decode("utf-8")
(the implicit decode of reading a file opened in text mode) would raise
UnicodeDecodeError.  Surrogates and overlong forms are rejected by the
per-lead-byte ranges, as in the stdlib decoder. -/
def utf8DecodeStrict : List Nat → Option (List Char)
  | [] => some []
  | b :: rest =>
    if b ≤ 127 then (utf8DecodeStrict rest).map (fun cs => Char.ofNat b :: cs)
    else if 194 ≤ b && b ≤ 223 then
      match rest with
      | b2 :: r =>
        if utf8Cont b2 then
          (utf8DecodeStrict r).map (fun cs => Char.ofNat ((b - 192) * 64 + (b2 - 128)) :: cs)
        else none
      | [] => none
    else if 224 ≤ b && b ≤ 239 then
      match rest with
      | b2 :: b3 :: r =>
        let lo2 := if b = 224 then 160 else 128
        let hi2 := if b = 237 then 159 else 191
        if lo2 ≤ b2 && b2 ≤ hi2 && utf8Cont b3 then
          (utf8DecodeStrict r).map
            (fun cs => Char.ofNat ((b - 224) * 4096 + (b2 - 128) * 64 + (b3 - 128)) :: cs)
        else none
      | _ => none
    else if 240 ≤ b && b ≤ 244 then
      match rest with
      | b2 :: b3 :: b4 :: r =>
        let lo2 := if b = 240 then 144 else 128
        let hi2 := if b = 244 then 143 else 191
        if lo2 ≤ b2 && b2 ≤ hi2 && utf8Cont b3 && utf8Cont b4 then
          (utf8DecodeStrict r).map
            (fun cs =>
              Char.ofNat ((b - 240) * 262144 + (b2 - 128) * 4096 + (b3 - 128) * 64 + (b4 - 128)) :: cs)
        else none
      | _ => none
    else none

/-! ### Base64 (base64.b64encode / b64decode) -/

/-- The 64-character standard base64 alphabet. -/
def b64Alphabet : List Char :=
  "ABCDEFGHIJKLMNOPQRSTUVWXYZabcdefghijklmnopqrstuvwxyz0123456789+/".toList

/-- Index of a character in a character list. -/
def idxOf (c : Char) : List Char → Option Nat
  | [] => none
  | a :: as => if a = c then some 0 else (idxOf c as).map (· + 1)

/-- Value of a base64 digit character. -/
def b64Index (c : Char) : Option Nat := idxOf c b64Alphabet

/-- Base64 digit character of a 6-bit value. -/
def b64Char (n : Nat) : Char := b64Alphabet.getD n 'A'

/-- Base64 encoding of a byte list, three bytes to four characters with "="
padding, as base64.b64encode produces. -/
def b64EncodeChunks : List Nat → List Char
  | [] => []
  | [b1] =>
    let x := b1 % 256
    [b64Char (x / 4), b64Char (x % 4 * 16), '=', '=']
  | [b1, b2] =>
    let x := b1 % 256
    let y := b2 % 256
    [b64Char (x / 4), b64Char (x % 4 * 16 + y / 16), b64Char (y % 16 * 4), '=']
  | b1 :: b2 :: b3 :: rest =>
    let x := b1 % 256
    let y := b2 % 256
    let z := b3 % 256
    b64Char (x / 4) :: b64Char (x % 4 * 16 + y / 16) ::
      b64Char (y % 16 * 4 + z / 64) :: b64Char (z % 64) :: b64EncodeChunks rest

/-- Base64 decoding of a character list, inverse of b64EncodeChunks on valid
input; none on malformed input. -/
def b64DecodeChunks : List Char → Option (List Nat)
  | [] => some []
  | c1 :: c2 :: c3 :: c4 :: rest =>
    match b64Index c1, b64Index c2, b64Index c3, b64Index c4 with
    | some n1, some n2, some n3, some n4 =>
      (b64DecodeChunks rest).map
        (fun bs => (n1 * 4 + n2 / 16) :: (n2 % 16 * 16 + n3 / 4) :: (n3 % 4 * 64 + n4) :: bs)
    | some n1, some n2, some n3, none =>
      if c4 = '=' ∧ rest = [] then some [n1 * 4 + n2 / 16, n2 % 16 * 16 + n3 / 4] else none
    | some n1, some n2, none, none =>
      if c3 = '=' ∧ c4 = '=' ∧ rest = [] then some [n1 * 4 + n2 / 16] else none
    | _, _, _, _ => none
  | _ => none

/-- String-level base64 encoding, base64.b64encode(content).decode("utf-8"). -/
def b64Encode (bs : List Nat) : String := String.mk (b64EncodeChunks bs)

/-- String-level base64 decoding. -/
def b64Decode (s : String) : Option (List Nat) := b64DecodeChunks s.toList

/-! ### The sandbox check and the three tool handlers -/

/-- MAX_FILE_SIZE = 1024 * 1024, line 20 of the source. -/
def MAX_FILE_SIZE : Int := 1024 * 1024

/-- The sandbox check _is_path_allowed, lines 115-118 of the source:
path = os.path.abspath(path); return any(path.startswith(d) for d in ALLOWED_DIRS).
A pure function of the configuration and the path string: no filesystem access. -/
def is_path_allowed (cfg : Config) (path : String) : Bool :=
  let p := abspath cfg.cwd path
  cfg.allowedDirs.any (fun d => pyStartswith p d)

/-- The sandbox-denied response body written by all three handlers. -/
def deniedBody (cfg : Config) : JVal :=
  .obj [("error", .str "Path not allowed"),
        ("allowed_dirs", .arr (cfg.allowedDirs.map .str))]

/-- The two-field error body of list_directory and read_file failures. -/
def errBody (msg path : String) : JVal :=
  .obj [("error", .str msg), ("path", .str path)]

/-- The oversize refusal body of read_file, lines 197-202 of the source. -/
def tooLargeBody (path : String) (file_size : Int) : JVal :=
  .obj [("error", .str "File too large to read"), ("path", .str path),
        ("size", .num file_size), ("max_size", .num MAX_FILE_SIZE)]

/-- One retained entry of the list_directory result, lines 146-152. -/
def entryJson (fs : FS) (name full : String) (st : StatInfo) : JVal :=
  .obj [("name", .str name),
        ("type", .str (if fs.isdir full then "directory" else "file")),
        ("size", .num st.st_size), ("modified", .num st.st_mtime),
        ("path", .str full)]

/-- The per-entry loop of list_directory, lines 140-155: each entry is
stat-ed; PermissionError and FileNotFoundError skip the entry; any other
stat exception escapes the inner try and aborts the loop. -/
def listLoop (fs : FS) (path : String) : List String → Except PyErr (List JVal) × List FSOp
  | [] => (.ok [], [])
  | e :: rest =>
    let full := pyJoin path e
    match fs.stat full with
    | .ok st =>
      ((listLoop fs path rest).1.map (fun js => entryJson fs e full st :: js),
       .opStat full :: .opIsdir full :: (listLoop fs path rest).2)
    | .error .permissionDenied =>
      ((listLoop fs path rest).1, .opStat full :: (listLoop fs path rest).2)
    | .error .fileNotFound =>
      ((listLoop fs path rest).1, .opStat full :: (listLoop fs path rest).2)
    | .error e2 => (.error e2, [.opStat full])

/-- The handler _handle_list_directory, lines 120-174 of the source. -/
def handle_list_directory (cfg : Config) (fs : FS) (params : Params) :
    HTTPResult × List FSOp :=
  match params.lookup "path" with
  | none => (.httpError 400 "Path parameter is required", [])
  | some path =>
    if is_path_allowed cfg path then
      match fs.listdir path with
      | .ok entries =>
        match (listLoop fs path entries).1 with
        | .ok result =>
          (.response 200 (.obj [("path", .str path), ("entries", .arr result),
             ("count", .num result.length)]),
           .opListdir path :: (listLoop fs path entries).2)
        | .error e => (.crash e, .opListdir path :: (listLoop fs path entries).2)
      | .error .fileNotFound =>
        (.response 200 (errBody "Directory not found or not a directory" path), [.opListdir path])
      | .error .notADirectory =>
        (.response 200 (errBody "Directory not found or not a directory" path), [.opListdir path])
      | .error .permissionDenied =>
        (.response 200 (errBody "Permission denied" path), [.opListdir path])
      | .error e => (.crash e, [.opListdir path])
    else (.response 200 (deniedBody cfg), [])

/-- Text-mode read, line 208 with is_binary false: open(path, "r") followed by
f.read().  The bytes are decoded strictly; a decode failure raises
UnicodeDecodeError, which no except clause of the handler catches.  The
isinstance(content, bytes) branch on line 224 is unreachable in text mode. -/
def readTextStrict (fs : FS) (p : String) : Except PyErr String :=
  match fs.readBytes p with
  | .error e => .error e
  | .ok bs =>
    match utf8DecodeStrict bs with
    | some cs => .ok (String.mk cs)
    | none => .error .unicodeDecodeError

/-- The handler _handle_read_file, lines 176-252 of the source. -/
def handle_read_file (cfg : Config) (fs : FS) (params : Params) :
    HTTPResult × List FSOp :=
  match params.lookup "path" with
  | none => (.httpError 400 "Path parameter is required", [])
  | some path =>
    if is_path_allowed cfg path then
      match fs.getsize path with
      | .ok file_size =>
        if file_size > MAX_FILE_SIZE then
          (.response 200 (tooLargeBody path file_size), [.opGetsize path])
        else
          if is_binary (guess_type path) then
            match fs.readBytes path with
            | .ok content =>
              (.response 200 (.obj [("path", .str path),
                 ("content_type", .str ((guess_type path).getD "application/octet-stream")),
                 ("encoding", .str "base64"), ("size", .num file_size),
                 ("content", .str (b64Encode content))]),
               [.opGetsize path, .opOpen path])
            | .error .fileNotFound =>
              (.response 200 (errBody "File not found" path), [.opGetsize path, .opOpen path])
            | .error .permissionDenied =>
              (.response 200 (errBody "Permission denied" path), [.opGetsize path, .opOpen path])
            | .error .isADirectory =>
              (.response 200 (errBody "Path is a directory, not a file" path),
               [.opGetsize path, .opOpen path])
            | .error e => (.crash e, [.opGetsize path, .opOpen path])
          else
            match readTextStrict fs path with
            | .ok content =>
              (.response 200 (.obj [("path", .str path),
                 ("content_type", .str ((guess_type path).getD "text/plain")),
                 ("encoding", .str "utf-8"), ("size", .num file_size),
                 ("content", .str content)]),
               [.opGetsize path, .opOpen path])
            | .error .fileNotFound =>
              (.response 200 (errBody "File not found" path), [.opGetsize path, .opOpen path])
            | .error .permissionDenied =>
              (.response 200 (errBody "Permission denied" path), [.opGetsize path, .opOpen path])
            | .error .isADirectory =>
              (.response 200 (errBody "Path is a directory, not a file" path),
               [.opGetsize path, .opOpen path])
            | .error e => (.crash e, [.opGetsize path, .opOpen path])
      | .error .fileNotFound =>
        (.response 200 (errBody "File not found" path), [.opGetsize path])
      | .error .permissionDenied =>
        (.response 200 (errBody "Permission denied" path), [.opGetsize path])
      | .error .isADirectory =>
        (.response 200 (errBody "Path is a directory, not a file" path), [.opGetsize path])
      | .error e => (.crash e, [.opGetsize path])
    else (.response 200 (deniedBody cfg), [])

/-- JSON rendering of an optional string: Python None becomes JSON null. -/
def optStr : Option String → JVal
  | none => .null
  | some s => .str s

/-- The handler _handle_get_file_info, lines 254-301 of the source. -/
def handle_get_file_info (cfg : Config) (fs : FS) (params : Params) :
    HTTPResult × List FSOp :=
  match params.lookup "path" with
  | none => (.httpError 400 "Path parameter is required", [])
  | some path =>
    if is_path_allowed cfg path then
      match fs.stat path with
      | .ok st =>
        (.response 200 (.obj [("path", .str path), ("exists", .bool true),
           ("is_file", .bool (fs.isfile path)), ("is_dir", .bool (fs.isdir path)),
           ("size", .num st.st_size), ("created", .num st.st_ctime),
           ("modified", .num st.st_mtime), ("accessed", .num st.st_atime),
           ("mime_type", optStr (guess_type path))]),
         [.opStat path, .opIsfile path, .opIsdir path])
      | .error .fileNotFound =>
        (.response 200 (.obj [("path", .str path), ("exists", .bool false),
           ("error", .str "File not found")]), [.opStat path])
      | .error .permissionDenied =>
        (.response 200 (.obj [("path", .str path), ("exists", .bool true),
           ("error", .str "Permission denied")]), [.opStat path])
      | .error e => (.crash e, [.opStat path])
    else (.response 200 (deniedBody cfg), [])

/-- The POST dispatcher do_POST, lines 93-113 of the source.  The body
argument is the result of json.loads on the request body: none models a
JSONDecodeError, which is answered with send_error(400). -/
def do_POST (cfg : Config) (fs : FS) (reqPath : String) (body : Option Params) :
    HTTPResult × List FSOp :=
  match body with
  | none => (.httpError 400 "Invalid JSON", [])
  | some params =>
    let tool_path := stripSlashes reqPath
    if tool_path = "list_directory" then handle_list_directory cfg fs params
    else if tool_path = "read_file" then handle_read_file cfg fs params
    else if tool_path = "get_file_info" then handle_get_file_info cfg fs params
    else (.httpError 404 "Tool not found", [])

/-! ### Spec-side definitions and field lookup -/

/-- Written from the spec's words in section 4.1, for comparison with the
source's is_path_allowed: a path passes when its canonical form is equal to,
or a descendant of (a path strictly below), some allowed root. -/
def isEqualOrDescendant (root p : String) : Bool :=
  p = root || pyStartswith p (root ++ "/")

/-- Spec-side sandbox predicate: canonicalize, then require equality with or
descent from at least one allowed root. -/
def specAllowed (cfg : Config) (path : String) : Bool :=
  cfg.allowedDirs.any (fun d => isEqualOrDescendant d (abspath cfg.cwd path))

/-- Field lookup in a JSON object body. -/
def jLookup (b : JVal) (k : String) : Option JVal :=
  match b with
  | .obj fields => fields.lookup k
  | _ => none

/-! ### Concrete configuration and filesystem for witnesses -/

/-- A concrete configuration: ALLOWED_DIRS as on a host whose home directory
is /home/user (line 19 of the source), with that directory as the process
working directory. -/
def cfg0 : Config := ⟨["/home/user", "/tmp"], "/home/user"⟩

/-- A concrete filesystem oracle exercising each handler branch. -/
def fsDemo : FS where
  listdir := fun p => if p = "/tmp/dir" then .ok ["a.txt", "b.txt", "c.txt"] else .error .fileNotFound
  stat := fun p =>
    if p = "/tmp/dir/b.txt" then .error .permissionDenied
    else if p = "/tmp/dir/a.txt" then .ok ⟨3, 10, 11, 12⟩
    else if p = "/tmp/dir/c.txt" then .ok ⟨4, 20, 21, 22⟩
    else if p = "/tmp/f.txt" then .ok ⟨5, 1, 2, 3⟩
    else if p = "/tmp/noext" then .ok ⟨7, 4, 5, 6⟩
    else .error .fileNotFound
  isdir := fun p => p = "/tmp/dir"
  isfile := fun p => p = "/tmp/f.txt" ∨ p = "/tmp/noext"
  getsize := fun p =>
    if p = "/tmp/ok.bin" then .ok 1048576
    else if p = "/tmp/big.bin" then .ok 1048577
    else if p = "/tmp/f.txt" then .ok 5
    else if p = "/tmp/a.png" then .ok 3
    else if p = "/tmp/bad.txt" then .ok 1
    else if p = "/tmp/noext" then .ok 7
    else .error .fileNotFound
  readBytes := fun p =>
    if p = "/tmp/ok.bin" then .ok [1, 2, 3]
    else if p = "/tmp/f.txt" then .ok [104, 105]
    else if p = "/tmp/a.png" then .ok [0, 255, 16]
    else if p = "/tmp/bad.txt" then .ok [255]
    else if p = "/tmp/noext" then .ok [110]
    else .error .fileNotFound

/-! ### Helper lemmas -/

/-- Each base64 digit decodes back to its 6-bit value. -/
theorem b64Index_b64Char_fin : ∀ n : Fin 64, b64Index (b64Char n.val) = some n.val := by
  decide

/-- Unbundled form of b64Index_b64Char_fin. -/
theorem b64Index_b64Char {n : Nat} (h : n < 64) : b64Index (b64Char n) = some n :=
  b64Index_b64Char_fin ⟨n, h⟩

/-- The padding character is not a base64 digit. -/
theorem b64Index_pad : b64Index '=' = none := by decide

/-- Decoding inverts encoding on byte lists. -/
theorem b64_roundtrip : ∀ bs : List Nat, (∀ b ∈ bs, b < 256) →
    b64DecodeChunks (b64EncodeChunks bs) = some bs
  | [], _ => rfl
  | [b1], h => by
    have hb1 : b1 < 256 := h b1 (by simp)
    have e1 : b1 % 256 = b1 := Nat.mod_eq_of_lt hb1
    simp only [b64EncodeChunks, e1, b64DecodeChunks,
      b64Index_b64Char (show b1 / 4 < 64 by omega),
      b64Index_b64Char (show b1 % 4 * 16 < 64 by omega), b64Index_pad]
    simp
    omega
  | [b1, b2], h => by
    have hb1 : b1 < 256 := h b1 (by simp)
    have hb2 : b2 < 256 := h b2 (by simp)
    have e1 : b1 % 256 = b1 := Nat.mod_eq_of_lt hb1
    have e2 : b2 % 256 = b2 := Nat.mod_eq_of_lt hb2
    simp only [b64EncodeChunks, e1, e2, b64DecodeChunks,
      b64Index_b64Char (show b1 / 4 < 64 by omega),
      b64Index_b64Char (show b1 % 4 * 16 + b2 / 16 < 64 by omega),
      b64Index_b64Char (show b2 % 16 * 4 < 64 by omega), b64Index_pad]
    simp
    omega
  | b1 :: b2 :: b3 :: rest, h => by
    have hb1 : b1 < 256 := h b1 (by simp)
    have hb2 : b2 < 256 := h b2 (by simp)
    have hb3 : b3 < 256 := h b3 (by simp)
    have ih := b64_roundtrip rest (fun b hb => h b (by simp [hb]))
    have e1 : b1 % 256 = b1 := Nat.mod_eq_of_lt hb1
    have e2 : b2 % 256 = b2 := Nat.mod_eq_of_lt hb2
    have e3 : b3 % 256 = b3 := Nat.mod_eq_of_lt hb3
    simp only [b64EncodeChunks, e1, e2, e3, b64DecodeChunks,
      b64Index_b64Char (show b1 / 4 < 64 by omega),
      b64Index_b64Char (show b1 % 4 * 16 + b2 / 16 < 64 by omega),
      b64Index_b64Char (show b2 % 16 * 4 + b3 / 64 < 64 by omega),
      b64Index_b64Char (show b3 % 64 < 64 by omega), ih, Option.map_some']
    simp
    omega

/-- String-level round-trip law for base64. -/
theorem b64Decode_b64Encode (bs : List Nat) (h : ∀ b ∈ bs, b < 256) :
    b64Decode (b64Encode bs) = some bs :=
  b64_roundtrip bs h

/-- A value produced by association-list lookup is among the listed values. -/
theorem lookup_mem_snd {α β : Type} [BEq α] (k : α) (v : β) :
    ∀ l : List (α × β), l.lookup k = some v → v ∈ l.map Prod.snd := by
  intro l
  induction l with
  | nil => intro hl; simp [List.lookup] at hl
  | cons hd tl ih =>
    intro hl
    match hd with
    | (a, b) =>
      rw [List.lookup] at hl
      cases hk : k == a with
      | true =>
        rw [hk] at hl
        have hb : b = v := by simpa using hl
        rw [List.map_cons]
        exact hb ▸ List.mem_cons_self b (tl.map Prod.snd)
      | false =>
        rw [hk] at hl
        rw [List.map_cons]
        exact List.mem_cons_of_mem _ (ih hl)

/-- Every type in the table starts with "application/json" only by being it. -/
theorem mimeVals_json :
    ∀ t ∈ mimeTable.map Prod.snd,
      pyStartswith t "application/json" = (t == "application/json") := by
  decide

/-- Whether a per-entry stat outcome is one the loop survives: success, or one
of the two caught exception types. -/
def statBenign : Except PyErr StatInfo → Bool
  | .ok _ => true
  | .error .permissionDenied => true
  | .error .fileNotFound => true
  | _ => false

/-- The entries list_directory retains: those whose stat succeeds. -/
def goodEntries (fs : FS) (path : String) (entries : List String) : List JVal :=
  entries.filterMap (fun e =>
    match fs.stat (pyJoin path e) with
    | .ok st => some (entryJson fs e (pyJoin path e) st)
    | .error _ => none)

/-- When every per-entry stat is benign, the loop succeeds and returns exactly
the entries whose stat succeeded, in order. -/
theorem listLoop_ok (fs : FS) (path : String) :
    ∀ entries : List String,
      (∀ e ∈ entries, statBenign (fs.stat (pyJoin path e)) = true) →
      (listLoop fs path entries).1 = .ok (goodEntries fs path entries) := by
  intro entries
  induction entries with
  | nil => intro _; rfl
  | cons e rest ih =>
    intro hb
    have hbe := hb e (by simp)
    have ihr := ih (fun x hx => hb x (by simp [hx]))
    simp only [listLoop, goodEntries, List.filterMap_cons]
    cases hst : fs.stat (pyJoin path e) with
    | ok st =>
      simp only [hst, ihr, goodEntries, Except.map]
    | error err =>
      cases err <;> simp_all [statBenign, goodEntries]

/-- All three handlers answer a sandbox-denied path with the denied body over
HTTP 200 and an empty operation trace; lines 128-134, 184-190, 262-268. -/
theorem handlers_denied (cfg : Config) (fs : FS) (params : Params) (path : String)
    (hp : params.lookup "path" = some path)
    (h : is_path_allowed cfg path = false) :
    handle_list_directory cfg fs params = (.response 200 (deniedBody cfg), []) ∧
    handle_read_file cfg fs params = (.response 200 (deniedBody cfg), []) ∧
    handle_get_file_info cfg fs params = (.response 200 (deniedBody cfg), []) := by
  refine ⟨?_, ?_, ?_⟩ <;>
    simp [handle_list_directory, handle_read_file, handle_get_file_info, hp, h]

/-- Any list_directory outcome that is a response has status 200. -/
theorem list_directory_status (cfg : Config) (fs : FS) (params : Params)
    (s : Nat) (b : JVal) (tr : List FSOp)
    (h : handle_list_directory cfg fs params = (.response s b, tr)) : s = 200 := by
  unfold handle_list_directory at h
  repeat' split at h
  all_goals simp_all

/-- Any read_file outcome that is a response has status 200. -/
theorem read_file_status (cfg : Config) (fs : FS) (params : Params)
    (s : Nat) (b : JVal) (tr : List FSOp)
    (h : handle_read_file cfg fs params = (.response s b, tr)) : s = 200 := by
  unfold handle_read_file at h
  repeat' split at h
  all_goals simp_all

/-- Any get_file_info outcome that is a response has status 200. -/
theorem get_file_info_status (cfg : Config) (fs : FS) (params : Params)
    (s : Nat) (b : JVal) (tr : List FSOp)
    (h : handle_get_file_info cfg fs params = (.response s b, tr)) : s = 200 := by
  unfold handle_get_file_info at h
  repeat' split at h
  all_goals simp_all

/-- With the path parameter present, list_directory never uses send_error. -/
theorem list_directory_no_httpError (cfg : Config) (fs : FS) (params : Params) (path : String)
    (hp : params.lookup "path" = some path) (s : Nat) (m : String) :
    (handle_list_directory cfg fs params).1 ≠ .httpError s m := by
  simp only [handle_list_directory, hp]
  repeat' split
  all_goals simp

/-- With the path parameter present, read_file never uses send_error. -/
theorem read_file_no_httpError (cfg : Config) (fs : FS) (params : Params) (path : String)
    (hp : params.lookup "path" = some path) (s : Nat) (m : String) :
    (handle_read_file cfg fs params).1 ≠ .httpError s m := by
  simp only [handle_read_file, hp]
  repeat' split
  all_goals simp

/-- With the path parameter present, get_file_info never uses send_error. -/
theorem get_file_info_no_httpError (cfg : Config) (fs : FS) (params : Params) (path : String)
    (hp : params.lookup "path" = some path) (s : Nat) (m : String) :
    (handle_get_file_info cfg fs params).1 ≠ .httpError s m := by
  simp only [handle_get_file_info, hp]
  repeat' split
  all_goals simp

/-- Shape of a successful binary read: lines 211-221 of the source. -/
theorem read_file_ok_binary (cfg : Config) (fs : FS) (params : Params) (path : String)
    (n : Int) (bs : List Nat)
    (hp : params.lookup "path" = some path)
    (hallow : is_path_allowed cfg path = true)
    (hsize : fs.getsize path = .ok n)
    (hn : ¬ n > MAX_FILE_SIZE)
    (hbin : is_binary (guess_type path) = true)
    (hread : fs.readBytes path = .ok bs) :
    handle_read_file cfg fs params =
      (.response 200 (.obj [("path", .str path),
         ("content_type", .str ((guess_type path).getD "application/octet-stream")),
         ("encoding", .str "base64"), ("size", .num n),
         ("content", .str (b64Encode bs))]),
       [.opGetsize path, .opOpen path]) := by
  simp [handle_read_file, hp, hallow, hsize, hn, hbin, hread]

/-- Shape of a successful text read: lines 222-233 of the source. -/
theorem read_file_ok_text (cfg : Config) (fs : FS) (params : Params) (path : String)
    (n : Int) (bs : List Nat) (cs : List Char)
    (hp : params.lookup "path" = some path)
    (hallow : is_path_allowed cfg path = true)
    (hsize : fs.getsize path = .ok n)
    (hn : ¬ n > MAX_FILE_SIZE)
    (hbin : is_binary (guess_type path) = false)
    (hread : fs.readBytes path = .ok bs)
    (hdec : utf8DecodeStrict bs = some cs) :
    handle_read_file cfg fs params =
      (.response 200 (.obj [("path", .str path),
         ("content_type", .str ((guess_type path).getD "text/plain")),
         ("encoding", .str "utf-8"), ("size", .num n),
         ("content", .str (String.mk cs))]),
       [.opGetsize path, .opOpen path]) := by
  simp [handle_read_file, readTextStrict, hp, hallow, hsize, hn, hbin, hread, hdec]

/-- Shape of a successful get_file_info: lines 270-287 of the source. -/
theorem get_file_info_ok (cfg : Config) (fs : FS) (params : Params) (path : String)
    (st : StatInfo)
    (hp : params.lookup "path" = some path)
    (hallow : is_path_allowed cfg path = true)
    (hstat : fs.stat path = .ok st) :
    handle_get_file_info cfg fs params =
      (.response 200 (.obj [("path", .str path), ("exists", .bool true),
         ("is_file", .bool (fs.isfile path)), ("is_dir", .bool (fs.isdir path)),
         ("size", .num st.st_size), ("created", .num st.st_ctime),
         ("modified", .num st.st_mtime), ("accessed", .num st.st_atime),
         ("mime_type", optStr (guess_type path))]),
       [.opStat path, .opIsfile path, .opIsdir path]) := by
  simp [handle_get_file_info, hp, hallow, hstat]

/-- When the route strips to list_directory, do_POST dispatches to it. -/
theorem do_POST_route_list (cfg : Config) (fs : FS) (reqPath : String) (params : Params)
    (h : stripSlashes reqPath = "list_directory") :
    do_POST cfg fs reqPath (some params) = handle_list_directory cfg fs params := by
  simp [do_POST, h]

/-- When the route strips to read_file, do_POST dispatches to it. -/
theorem do_POST_route_read (cfg : Config) (fs : FS) (reqPath : String) (params : Params)
    (h : stripSlashes reqPath = "read_file") :
    do_POST cfg fs reqPath (some params) = handle_read_file cfg fs params := by
  simp [do_POST, h]

/-- When the route strips to get_file_info, do_POST dispatches to it. -/
theorem do_POST_route_info (cfg : Config) (fs : FS) (reqPath : String) (params : Params)
    (h : stripSlashes reqPath = "get_file_info") :
    do_POST cfg fs reqPath (some params) = handle_get_file_info cfg fs params := by
  simp [do_POST, h]

/-- Unmatched routes answer send_error(404, "Tool not found"), line 113. -/
theorem do_POST_route_miss (cfg : Config) (fs : FS) (reqPath : String) (params : Params)
    (h1 : stripSlashes reqPath ≠ "list_directory")
    (h2 : stripSlashes reqPath ≠ "read_file")
    (h3 : stripSlashes reqPath ≠ "get_file_info") :
    do_POST cfg fs reqPath (some params) = (.httpError 404 "Tool not found", []) := by
  simp [do_POST, h1, h2, h3]

/-- All three handlers answer a missing path parameter with
send_error(400, "Path parameter is required") before touching the sandbox
check or the filesystem; lines 122-124, 178-180, 256-258. -/
theorem handlers_missing_path (cfg : Config) (fs : FS) (params : Params)
    (h : params.lookup "path" = none) :
    handle_list_directory cfg fs params = (.httpError 400 "Path parameter is required", []) ∧
    handle_read_file cfg fs params = (.httpError 400 "Path parameter is required", []) ∧
    handle_get_file_info cfg fs params = (.httpError 400 "Path parameter is required", []) := by
  refine ⟨?_, ?_, ?_⟩ <;>
    simp [handle_list_directory, handle_read_file, handle_get_file_info, h]

/-! ### Claim theorems -/

/-- C1 counterexample: the path /tmpfoo is neither equal to nor a descendant
of any configured allowed root (spec-side specAllowed is false), yet the
prefix-matching sandbox check admits it and read_file proceeds to filesystem
access instead of returning the sandbox-denied body with an empty trace. -/
theorem C1_counterexample :
    specAllowed cfg0 "/tmpfoo" = false ∧
    is_path_allowed cfg0 "/tmpfoo" = true ∧
    handle_read_file cfg0 fsDemo [("path", "/tmpfoo")] ≠
      (.response 200 (deniedBody cfg0), []) := by
  refine ⟨rfl, rfl, ?_⟩
  rw [show handle_read_file cfg0 fsDemo [("path", "/tmpfoo")] =
      (.response 200 (errBody "File not found" "/tmpfoo"), [.opGetsize "/tmpfoo"]) from rfl]
  simp

/-- C1 (amended): for every caller-supplied path whose canonical absolute form
does not have any configured allowed root as a string prefix (the check the
source actually performs, which admits non-descendants such as /tmpfoo under
root /tmp), each of the three tool handlers returns the sandbox-denied body
with HTTP status 200 and performs no filesystem operation; the check itself,
is_path_allowed, is a pure function of the configuration and path string. -/
theorem C1_sandbox_denial (cfg : Config) (fs : FS) (params : Params) (path : String)
    (hp : params.lookup "path" = some path)
    (h : is_path_allowed cfg path = false) :
    handle_list_directory cfg fs params = (.response 200 (deniedBody cfg), []) ∧
    handle_read_file cfg fs params = (.response 200 (deniedBody cfg), []) ∧
    handle_get_file_info cfg fs params = (.response 200 (deniedBody cfg), []) :=
  handlers_denied cfg fs params path hp h

/-- Witness for C1_sandbox_denial: the spec's concrete scenario, /etc/passwd
denied by all three handlers with no filesystem operation performed. -/
theorem C1_sandbox_denial_witness :
    (([("path", "/etc/passwd")] : Params).lookup "path" = some "/etc/passwd") ∧
    is_path_allowed cfg0 "/etc/passwd" = false ∧
    handle_list_directory cfg0 fsDemo [("path", "/etc/passwd")] =
      (.response 200 (deniedBody cfg0), []) ∧
    handle_read_file cfg0 fsDemo [("path", "/etc/passwd")] =
      (.response 200 (deniedBody cfg0), []) ∧
    handle_get_file_info cfg0 fsDemo [("path", "/etc/passwd")] =
      (.response 200 (deniedBody cfg0), []) := by
  have h := C1_sandbox_denial cfg0 fsDemo [("path", "/etc/passwd")] "/etc/passwd" rfl rfl
  exact ⟨rfl, rfl, h.1, h.2.1, h.2.2⟩

/-- C2 (code bug): a sandbox-allowed .txt file whose single byte 0xFF is not
valid UTF-8 makes read_file crash with an uncaught UnicodeDecodeError instead
of substituting a replacement character: line 208 opens text files in strict
text mode, so the decode-with-replacement branch on lines 224-225 is dead
code and the permissive decoding the spec promises never happens. -/
theorem C2_strict_decode_crash :
    guess_type "/tmp/bad.txt" = some "text/plain" ∧
    fsDemo.readBytes "/tmp/bad.txt" = .ok [255] ∧
    handle_read_file cfg0 fsDemo [("path", "/tmp/bad.txt")] =
      (.crash .unicodeDecodeError, [.opGetsize "/tmp/bad.txt", .opOpen "/tmp/bad.txt"]) :=
  ⟨rfl, rfl, rfl⟩

/-- C3: for a sandbox-allowed file path, read_file refuses with the exact
oversize body and performs no read when the size strictly exceeds
MAX_FILE_SIZE = 1048576, and succeeds (200 response with content and no error
key) when the size is at most MAX_FILE_SIZE and the read itself succeeds. -/
theorem C3_size_gate (cfg : Config) (fs : FS) (params : Params) (path : String) (n : Int)
    (hp : params.lookup "path" = some path)
    (hallow : is_path_allowed cfg path = true)
    (hsize : fs.getsize path = .ok n) :
    (n > MAX_FILE_SIZE →
      handle_read_file cfg fs params =
        (.response 200 (tooLargeBody path n), [.opGetsize path])) ∧
    (¬ n > MAX_FILE_SIZE → ∀ bs : List Nat, fs.readBytes path = .ok bs →
      (is_binary (guess_type path) = false → ∃ cs, utf8DecodeStrict bs = some cs) →
      ∃ body : JVal,
        handle_read_file cfg fs params =
          (.response 200 body, [.opGetsize path, .opOpen path]) ∧
        jLookup body "error" = none ∧ jLookup body "size" = some (.num n)) := by
  constructor
  · intro hn
    simp [handle_read_file, hp, hallow, hsize, hn]
  · intro hn bs hread hdec
    cases hbin : is_binary (guess_type path) with
    | true =>
      exact ⟨_, read_file_ok_binary cfg fs params path n bs hp hallow hsize hn hbin hread,
        rfl, rfl⟩
    | false =>
      obtain ⟨cs, hcs⟩ := hdec hbin
      exact ⟨_, read_file_ok_text cfg fs params path n bs cs hp hallow hsize hn hbin hread hcs,
        rfl, rfl⟩

/-- Witness for C3_size_gate: a file of exactly MAX_FILE_SIZE bytes succeeds
and one of MAX_FILE_SIZE + 1 bytes is refused with only the size probe in the
operation trace. -/
theorem C3_size_gate_witness :
    fsDemo.getsize "/tmp/ok.bin" = .ok 1048576 ∧
    fsDemo.getsize "/tmp/big.bin" = .ok 1048577 ∧
    (∃ body : JVal,
      handle_read_file cfg0 fsDemo [("path", "/tmp/ok.bin")] =
        (.response 200 body, [.opGetsize "/tmp/ok.bin", .opOpen "/tmp/ok.bin"]) ∧
      jLookup body "error" = none ∧ jLookup body "size" = some (.num 1048576)) ∧
    handle_read_file cfg0 fsDemo [("path", "/tmp/big.bin")] =
      (.response 200 (tooLargeBody "/tmp/big.bin" 1048577), [.opGetsize "/tmp/big.bin"]) :=
  ⟨rfl, rfl,
   (C3_size_gate cfg0 fsDemo [("path", "/tmp/ok.bin")] "/tmp/ok.bin" 1048576
      rfl rfl rfl).2 (by decide) [1, 2, 3] rfl
      (fun hfalse => absurd hfalse (by decide)),
   (C3_size_gate cfg0 fsDemo [("path", "/tmp/big.bin")] "/tmp/big.bin" 1048577
      rfl rfl rfl).1 (by decide)⟩

/-- C4: read_file classifies a file as binary exactly when a MIME type is
inferred for its path and that type neither starts with "text/" nor is
"application/json"; every other case, including an unknown extension, is
text; and a successful read reports encoding "base64" under the binary
classification and "utf-8" under the text classification. -/
theorem C4_binary_classification (cfg : Config) (fs : FS) (params : Params) (path : String)
    (n : Int) (bs : List Nat) (cs : List Char) :
    (is_binary (guess_type path) = true ↔
      ∃ t, guess_type path = some t ∧ pyStartswith t "text/" = false ∧
        t ≠ "application/json") ∧
    (params.lookup "path" = some path → is_path_allowed cfg path = true →
      fs.getsize path = .ok n → ¬ n > MAX_FILE_SIZE → fs.readBytes path = .ok bs →
      (is_binary (guess_type path) = true →
        ∃ body : JVal, handle_read_file cfg fs params =
            (.response 200 body, [.opGetsize path, .opOpen path]) ∧
          jLookup body "encoding" = some (.str "base64")) ∧
      (is_binary (guess_type path) = false → utf8DecodeStrict bs = some cs →
        ∃ body : JVal, handle_read_file cfg fs params =
            (.response 200 body, [.opGetsize path, .opOpen path]) ∧
          jLookup body "encoding" = some (.str "utf-8"))) := by
  have key : ∀ t, guess_type path = some t →
      pyStartswith t "application/json" = (t == "application/json") := by
    intro t hg
    have hmem : t ∈ mimeTable.map Prod.snd := by
      apply lookup_mem_snd _ t
      simpa [guess_type] using hg
    exact mimeVals_json t hmem
  refine ⟨⟨?_, ?_⟩, ?_⟩
  · intro hb
    cases hg : guess_type path with
    | none => rw [hg] at hb; simp [is_binary] at hb
    | some t =>
      rw [hg] at hb
      simp only [is_binary, Bool.not_eq_eq_eq_not, Bool.not_true,
        Bool.or_eq_false_iff] at hb
      have h2 : (t == "application/json") = false := (key t hg) ▸ hb.2
      exact ⟨t, rfl, hb.1, by simpa using h2⟩
  · rintro ⟨t, hg, hA, hne⟩
    have hB : pyStartswith t "application/json" = false := by
      rw [key t hg]
      simpa using hne
    rw [hg]
    simp [is_binary, hA, hB]
  · intro hp hallow hsize hn hread
    constructor
    · intro hbin
      exact ⟨_, read_file_ok_binary cfg fs params path n bs hp hallow hsize hn hbin hread, rfl⟩
    · intro hbin hcs
      exact ⟨_, read_file_ok_text cfg fs params path n bs cs hp hallow hsize hn hbin hread hcs,
        rfl⟩

/-- Witness for C4_binary_classification: the .png file classifies as binary
and its successful read reports encoding base64; the .txt file classifies as
text and reports encoding utf-8. -/
theorem C4_binary_classification_witness :
    is_binary (guess_type "/tmp/a.png") = true ∧
    is_binary (guess_type "/tmp/f.txt") = false ∧
    (∃ body : JVal, handle_read_file cfg0 fsDemo [("path", "/tmp/a.png")] =
        (.response 200 body, [.opGetsize "/tmp/a.png", .opOpen "/tmp/a.png"]) ∧
      jLookup body "encoding" = some (.str "base64")) ∧
    (∃ body : JVal, handle_read_file cfg0 fsDemo [("path", "/tmp/f.txt")] =
        (.response 200 body, [.opGetsize "/tmp/f.txt", .opOpen "/tmp/f.txt"]) ∧
      jLookup body "encoding" = some (.str "utf-8")) :=
  ⟨rfl, rfl,
   ((C4_binary_classification cfg0 fsDemo [("path", "/tmp/a.png")] "/tmp/a.png"
       3 [0, 255, 16] []).2 rfl rfl rfl (by decide) rfl).1 rfl,
   ((C4_binary_classification cfg0 fsDemo [("path", "/tmp/f.txt")] "/tmp/f.txt"
       5 [104, 105] ['h', 'i']).2 rfl rfl rfl (by decide) rfl).2 rfl rfl⟩

/-- C5: for every file read_file classifies as binary, the successful
response's content is the base64 text encoding of the file's raw bytes, and
base64-decoding the returned content reproduces those bytes exactly. -/
theorem C5_base64_roundtrip (cfg : Config) (fs : FS) (params : Params) (path : String)
    (n : Int) (bs : List Nat)
    (hp : params.lookup "path" = some path)
    (hallow : is_path_allowed cfg path = true)
    (hsize : fs.getsize path = .ok n)
    (hn : ¬ n > MAX_FILE_SIZE)
    (hbin : is_binary (guess_type path) = true)
    (hread : fs.readBytes path = .ok bs)
    (hbytes : ∀ b ∈ bs, b < 256) :
    ∃ body : JVal,
      handle_read_file cfg fs params = (.response 200 body, [.opGetsize path, .opOpen path]) ∧
      jLookup body "content" = some (.str (b64Encode bs)) ∧
      b64Decode (b64Encode bs) = some bs :=
  ⟨_, read_file_ok_binary cfg fs params path n bs hp hallow hsize hn hbin hread,
   rfl, b64Decode_b64Encode bs hbytes⟩

/-- Witness for C5_base64_roundtrip on the three-byte .png file. -/
theorem C5_base64_roundtrip_witness :
    fsDemo.readBytes "/tmp/a.png" = .ok [0, 255, 16] ∧
    is_binary (guess_type "/tmp/a.png") = true ∧
    (∃ body : JVal,
      handle_read_file cfg0 fsDemo [("path", "/tmp/a.png")] =
        (.response 200 body, [.opGetsize "/tmp/a.png", .opOpen "/tmp/a.png"]) ∧
      jLookup body "content" = some (.str (b64Encode [0, 255, 16])) ∧
      b64Decode (b64Encode [0, 255, 16]) = some [0, 255, 16]) :=
  ⟨rfl, rfl,
   C5_base64_roundtrip cfg0 fsDemo [("path", "/tmp/a.png")] "/tmp/a.png" 3 [0, 255, 16]
     rfl rfl rfl (by decide) rfl rfl (by decide)⟩

/-- C6: for a sandbox-allowed directory whose per-entry stats all either
succeed or raise one of the two caught errors, list_directory retains exactly
the entries whose stat succeeds, silently skipping the others, and the count
field equals the length of the returned entry list. -/
theorem C6_list_skips (cfg : Config) (fs : FS) (params : Params) (path : String)
    (entries : List String)
    (hp : params.lookup "path" = some path)
    (hallow : is_path_allowed cfg path = true)
    (hls : fs.listdir path = .ok entries)
    (hben : ∀ e ∈ entries, statBenign (fs.stat (pyJoin path e)) = true) :
    ∃ tr : List FSOp, handle_list_directory cfg fs params =
      (.response 200 (.obj [("path", .str path),
         ("entries", .arr (goodEntries fs path entries)),
         ("count", .num (goodEntries fs path entries).length)]), tr) := by
  have hll := listLoop_ok fs path entries hben
  refine ⟨.opListdir path :: (listLoop fs path entries).2, ?_⟩
  simp [handle_list_directory, hp, hallow, hls, hll]

/-- Witness for C6_list_skips: a directory of three entries of which the
middle one is permission-denied yields exactly the two accessible entries and
count 2. -/
theorem C6_list_skips_witness :
    fsDemo.listdir "/tmp/dir" = .ok ["a.txt", "b.txt", "c.txt"] ∧
    fsDemo.stat "/tmp/dir/b.txt" = .error .permissionDenied ∧
    (goodEntries fsDemo "/tmp/dir" ["a.txt", "b.txt", "c.txt"]).length = 2 ∧
    (∃ tr : List FSOp, handle_list_directory cfg0 fsDemo [("path", "/tmp/dir")] =
      (.response 200 (.obj [("path", .str "/tmp/dir"),
         ("entries", .arr (goodEntries fsDemo "/tmp/dir" ["a.txt", "b.txt", "c.txt"])),
         ("count", .num (goodEntries fsDemo "/tmp/dir" ["a.txt", "b.txt", "c.txt"]).length)]),
       tr)) :=
  ⟨rfl, rfl, rfl,
   C6_list_skips cfg0 fsDemo [("path", "/tmp/dir")] "/tmp/dir"
     ["a.txt", "b.txt", "c.txt"] rfl rfl rfl (by decide)⟩

/-- C7: for a sandbox-allowed path, get_file_info answers a not-found stat
with exists false and "File not found", a permission-denied stat with exists
true and "Permission denied", and a successful stat with exists true, so the
exists field is present in every response for an allowed path. -/
theorem C7_info_errors (cfg : Config) (fs : FS) (params : Params) (path : String)
    (hp : params.lookup "path" = some path)
    (hallow : is_path_allowed cfg path = true) :
    (fs.stat path = .error .fileNotFound →
      handle_get_file_info cfg fs params =
        (.response 200 (.obj [("path", .str path), ("exists", .bool false),
           ("error", .str "File not found")]), [.opStat path])) ∧
    (fs.stat path = .error .permissionDenied →
      handle_get_file_info cfg fs params =
        (.response 200 (.obj [("path", .str path), ("exists", .bool true),
           ("error", .str "Permission denied")]), [.opStat path])) ∧
    (∀ st : StatInfo, fs.stat path = .ok st →
      ∃ (body : JVal) (tr : List FSOp),
        handle_get_file_info cfg fs params = (.response 200 body, tr) ∧
        jLookup body "exists" = some (.bool true)) :=
  ⟨fun h => by simp [handle_get_file_info, hp, hallow, h],
   fun h => by simp [handle_get_file_info, hp, hallow, h],
   fun st h => ⟨_, _, get_file_info_ok cfg fs params path st hp hallow h, rfl⟩⟩

/-- Witness for C7_info_errors: the spec's concrete not-found scenario for
/tmp/does_not_exist, the permission-denied entry, and a successful stat. -/
theorem C7_info_errors_witness :
    fsDemo.stat "/tmp/does_not_exist" = .error .fileNotFound ∧
    handle_get_file_info cfg0 fsDemo [("path", "/tmp/does_not_exist")] =
      (.response 200 (.obj [("path", .str "/tmp/does_not_exist"),
         ("exists", .bool false), ("error", .str "File not found")]),
       [.opStat "/tmp/does_not_exist"]) ∧
    handle_get_file_info cfg0 fsDemo [("path", "/tmp/dir/b.txt")] =
      (.response 200 (.obj [("path", .str "/tmp/dir/b.txt"),
         ("exists", .bool true), ("error", .str "Permission denied")]),
       [.opStat "/tmp/dir/b.txt"]) ∧
    (∃ (body : JVal) (tr : List FSOp),
      handle_get_file_info cfg0 fsDemo [("path", "/tmp/f.txt")] =
        (.response 200 body, tr) ∧
      jLookup body "exists" = some (.bool true)) :=
  ⟨rfl,
   (C7_info_errors cfg0 fsDemo [("path", "/tmp/does_not_exist")] "/tmp/does_not_exist"
     rfl rfl).1 rfl,
   (C7_info_errors cfg0 fsDemo [("path", "/tmp/dir/b.txt")] "/tmp/dir/b.txt"
     rfl rfl).2.1 rfl,
   (C7_info_errors cfg0 fsDemo [("path", "/tmp/f.txt")] "/tmp/f.txt"
     rfl rfl).2.2 ⟨5, 1, 2, 3⟩ rfl⟩

/-- C8 counterexample: a request whose body parses as valid JSON but lacks
the path key receives HTTP status 400, an HTTP error status that is neither
the JSON-parse-failure case nor the 404 route miss, so JSON parse failure is
not the one case in which an HTTP error status is used. -/
theorem C8_counterexample :
    do_POST cfg0 fsDemo "/read_file" (some [("other", "1")]) =
      (.httpError 400 "Path parameter is required", []) ∧
    (400 : Nat) ≠ 200 ∧ (400 : Nat) ≠ 404 :=
  ⟨rfl, by decide, by decide⟩

/-- C8 (amended): a body failing to parse as JSON yields HTTP 400; a trailing
route segment matching none of the three tool names yields HTTP 404; a valid
body lacking the path key on a tool route yields HTTP 400 as well; and with
the path key present no send_error is reached, every written response carries
status 200, and in particular a sandbox denial is a 200 response with the
structured denied body.  JSON parse failure and the missing path parameter
are the two non-routing cases using an HTTP error status. -/
theorem C8_status_policy (cfg : Config) (fs : FS) (reqPath : String) (params : Params)
    (path : String) :
    do_POST cfg fs reqPath none = (.httpError 400 "Invalid JSON", []) ∧
    ((stripSlashes reqPath = "list_directory" ∨ stripSlashes reqPath = "read_file" ∨
        stripSlashes reqPath = "get_file_info") →
      (params.lookup "path" = none →
        do_POST cfg fs reqPath (some params) =
          (.httpError 400 "Path parameter is required", [])) ∧
      (params.lookup "path" = some path →
        (∀ (s : Nat) (m : String),
          (do_POST cfg fs reqPath (some params)).1 ≠ .httpError s m) ∧
        (∀ (s : Nat) (b : JVal) (tr : List FSOp),
          do_POST cfg fs reqPath (some params) = (.response s b, tr) → s = 200) ∧
        (is_path_allowed cfg path = false →
          do_POST cfg fs reqPath (some params) = (.response 200 (deniedBody cfg), [])))) ∧
    ((stripSlashes reqPath ≠ "list_directory" ∧ stripSlashes reqPath ≠ "read_file" ∧
        stripSlashes reqPath ≠ "get_file_info") →
      do_POST cfg fs reqPath (some params) = (.httpError 404 "Tool not found", [])) := by
  refine ⟨rfl, ?_, fun hm => do_POST_route_miss cfg fs reqPath params hm.1 hm.2.1 hm.2.2⟩
  rintro (h | h | h)
  · rw [do_POST_route_list cfg fs reqPath params h]
    exact ⟨fun hn => (handlers_missing_path cfg fs params hn).1,
      fun hp => ⟨fun s m => list_directory_no_httpError cfg fs params path hp s m,
        fun s b tr hr => list_directory_status cfg fs params s b tr hr,
        fun hd => (handlers_denied cfg fs params path hp hd).1⟩⟩
  · rw [do_POST_route_read cfg fs reqPath params h]
    exact ⟨fun hn => (handlers_missing_path cfg fs params hn).2.1,
      fun hp => ⟨fun s m => read_file_no_httpError cfg fs params path hp s m,
        fun s b tr hr => read_file_status cfg fs params s b tr hr,
        fun hd => (handlers_denied cfg fs params path hp hd).2.1⟩⟩
  · rw [do_POST_route_info cfg fs reqPath params h]
    exact ⟨fun hn => (handlers_missing_path cfg fs params hn).2.2,
      fun hp => ⟨fun s m => get_file_info_no_httpError cfg fs params path hp s m,
        fun s b tr hr => get_file_info_status cfg fs params s b tr hr,
        fun hd => (handlers_denied cfg fs params path hp hd).2.2⟩⟩

/-- Witness for C8_status_policy: parse failure gives 400, a sandbox-denied
request gives a 200 response with the denied body, an unmatched route gives
404. -/
theorem C8_status_policy_witness :
    do_POST cfg0 fsDemo "/read_file" none = (.httpError 400 "Invalid JSON", []) ∧
    do_POST cfg0 fsDemo "/read_file" (some [("path", "/etc/passwd")]) =
      (.response 200 (deniedBody cfg0), []) ∧
    do_POST cfg0 fsDemo "/nope" (some [("path", "/etc/passwd")]) =
      (.httpError 404 "Tool not found", []) :=
  ⟨(C8_status_policy cfg0 fsDemo "/read_file" [("path", "/etc/passwd")] "/etc/passwd").1,
   (((C8_status_policy cfg0 fsDemo "/read_file" [("path", "/etc/passwd")]
       "/etc/passwd").2.1 (Or.inr (Or.inl rfl))).2 rfl).2.2 rfl,
   (C8_status_policy cfg0 fsDemo "/nope" [("path", "/etc/passwd")] "/etc/passwd").2.2
     ⟨by decide, by decide, by decide⟩⟩

/-- C9: a syntactically valid body lacking the path key makes each of the
three tool routes answer with send_error(400, "Path parameter is required"):
an HTTP transport error, not a 200 body, produced before the sandbox check
(the result does not depend on the configuration) and with an empty
filesystem operation trace. -/
theorem C9_missing_path (cfg : Config) (fs : FS) (params : Params)
    (h : params.lookup "path" = none) :
    do_POST cfg fs "/list_directory" (some params) =
      (.httpError 400 "Path parameter is required", []) ∧
    do_POST cfg fs "/read_file" (some params) =
      (.httpError 400 "Path parameter is required", []) ∧
    do_POST cfg fs "/get_file_info" (some params) =
      (.httpError 400 "Path parameter is required", []) := by
  have hm := handlers_missing_path cfg fs params h
  exact ⟨(do_POST_route_list cfg fs "/list_directory" params rfl).trans hm.1,
    (do_POST_route_read cfg fs "/read_file" params rfl).trans hm.2.1,
    (do_POST_route_info cfg fs "/get_file_info" params rfl).trans hm.2.2⟩

/-- Witness for C9_missing_path on a body with an unrelated key only. -/
theorem C9_missing_path_witness :
    (([("other", "x")] : Params).lookup "path" = none) ∧
    do_POST cfg0 fsDemo "/list_directory" (some [("other", "x")]) =
      (.httpError 400 "Path parameter is required", []) ∧
    do_POST cfg0 fsDemo "/read_file" (some [("other", "x")]) =
      (.httpError 400 "Path parameter is required", []) ∧
    do_POST cfg0 fsDemo "/get_file_info" (some [("other", "x")]) =
      (.httpError 400 "Path parameter is required", []) := by
  have h := C9_missing_path cfg0 fsDemo [("other", "x")] rfl
  exact ⟨rfl, h.1, h.2.1, h.2.2⟩

/-- A field holding a string value is not null. -/
theorem jLookup_ne_null (fields : List (String × JVal)) (k : String) (s : String)
    (h : jLookup (.obj fields) k = some (.str s)) :
    jLookup (.obj fields) k ≠ some .null := by
  rw [h]
  simp

/-- C10: with no MIME type inferable from the extension, a successful
get_file_info response carries mime_type null, while a successful read_file
response never carries a null content_type: the binary branch falls back to
"application/octet-stream" and the text branch (which is the branch taken
whenever no type is inferred) falls back to "text/plain". -/
theorem C10_mime_fallbacks (cfg : Config) (fs : FS) (params : Params) (path : String)
    (n : Int) (bs : List Nat) (cs : List Char) (st : StatInfo)
    (hp : params.lookup "path" = some path)
    (hallow : is_path_allowed cfg path = true) :
    (fs.stat path = .ok st → guess_type path = none →
      ∃ (body : JVal) (tr : List FSOp),
        handle_get_file_info cfg fs params = (.response 200 body, tr) ∧
        jLookup body "mime_type" = some .null) ∧
    (fs.getsize path = .ok n → ¬ n > MAX_FILE_SIZE → fs.readBytes path = .ok bs →
      (is_binary (guess_type path) = true →
        ∃ body : JVal, handle_read_file cfg fs params =
            (.response 200 body, [.opGetsize path, .opOpen path]) ∧
          jLookup body "content_type" =
            some (.str ((guess_type path).getD "application/octet-stream")) ∧
          jLookup body "content_type" ≠ some .null) ∧
      (is_binary (guess_type path) = false → utf8DecodeStrict bs = some cs →
        ∃ body : JVal, handle_read_file cfg fs params =
            (.response 200 body, [.opGetsize path, .opOpen path]) ∧
          jLookup body "content_type" =
            some (.str ((guess_type path).getD "text/plain")) ∧
          jLookup body "content_type" ≠ some .null ∧
          (guess_type path = none →
            jLookup body "content_type" = some (.str "text/plain")))) := by
  constructor
  · intro hstat hg
    exact ⟨_, _, get_file_info_ok cfg fs params path st hp hallow hstat,
      by rw [hg]; exact rfl⟩
  · intro hsize hn hread
    constructor
    · intro hbin
      exact ⟨_, read_file_ok_binary cfg fs params path n bs hp hallow hsize hn hbin hread,
        rfl, jLookup_ne_null _ _ ((guess_type path).getD "application/octet-stream") rfl⟩
    · intro hbin hcs
      exact ⟨_, read_file_ok_text cfg fs params path n bs cs hp hallow hsize hn hbin hread hcs,
        rfl, jLookup_ne_null _ _ ((guess_type path).getD "text/plain") rfl,
        fun hg => by rw [hg]; exact rfl⟩

/-- Witness for C10_mime_fallbacks: the extensionless file /tmp/noext gives
mime_type null from get_file_info and content_type "text/plain" from
read_file, while the .png file gives its inferred content_type. -/
theorem C10_mime_fallbacks_witness :
    guess_type "/tmp/noext" = none ∧
    (∃ (body : JVal) (tr : List FSOp),
      handle_get_file_info cfg0 fsDemo [("path", "/tmp/noext")] =
        (.response 200 body, tr) ∧
      jLookup body "mime_type" = some .null) ∧
    (∃ body : JVal, handle_read_file cfg0 fsDemo [("path", "/tmp/noext")] =
        (.response 200 body, [.opGetsize "/tmp/noext", .opOpen "/tmp/noext"]) ∧
      jLookup body "content_type" = some (.str "text/plain") ∧
      jLookup body "content_type" ≠ some .null ∧
      (guess_type "/tmp/noext" = none →
        jLookup body "content_type" = some (.str "text/plain"))) ∧
    (∃ body : JVal, handle_read_file cfg0 fsDemo [("path", "/tmp/a.png")] =
        (.response 200 body, [.opGetsize "/tmp/a.png", .opOpen "/tmp/a.png"]) ∧
      jLookup body "content_type" = some (.str "image/png") ∧
      jLookup body "content_type" ≠ some .null) :=
  ⟨rfl,
   (C10_mime_fallbacks cfg0 fsDemo [("path", "/tmp/noext")] "/tmp/noext"
     7 [110] ['n'] ⟨7, 4, 5, 6⟩ rfl rfl).1 rfl rfl,
   ((C10_mime_fallbacks cfg0 fsDemo [("path", "/tmp/noext")] "/tmp/noext"
     7 [110] ['n'] ⟨7, 4, 5, 6⟩ rfl rfl).2 rfl (by decide) rfl).2 rfl rfl,
   ((C10_mime_fallbacks cfg0 fsDemo [("path", "/tmp/a.png")] "/tmp/a.png"
     3 [0, 255, 16] [] ⟨7, 4, 5, 6⟩ rfl rfl).2 rfl (by decide) rfl).1 rfl⟩

end FileBrowser
